import Mathlib

/-!
Verification development for the search query layer of the repository
(`search/query.go`).  The Go code builds OpenSearch query bodies as nested
`map[string]interface{}` values, validates pagination parameters, dispatches
the query through an injected engine client, and decodes the JSON response
body into the `EsSearchResponse` structure.

The embedding below mirrors that code:
* `J` is the type of JSON values (the `map[string]interface{}` trees the Go
  code builds, and the response bodies it decodes).
* `checkParams` is a direct translation of the Go `checkParams`.
* `postsQuery`, `profilesQuery`, `typeaheadQuery`, `genericQuery` are the
  query bodies built inside `DoSearchPosts`, `DoSearchProfiles`,
  `DoSearchProfilesTypeahead`, `DoSearchGeneric`.
* `Engine` abstracts the injected OpenSearch client: a call takes the index
  name, the structured query body and the track-total-hits flag, and either
  fails at the transport level or yields a response body (already parsed to
  a `J` value; a body that is not syntactically valid JSON has no `J`
  representation and is out of this model).
* `doSearch` mirrors the Go `doSearch`: a transport error hits the
  `log.Fatalf` call (modelled by the `DoResult.fatal` outcome, a process
  abort), a decode error is returned to the caller (`DoResult.err`, the Go
  `(nil, err)` return), success is `DoResult.ok` (the Go `(&out, nil)`
  return).  JSON-encoding the query cannot fail for the map values the
  builders produce, so that `log.Fatalf` branch is unreachable and the
  model hands the structured query to the engine directly.
* `decodeEsSearchResponse` models the Go standard library
  `encoding/json` unmarshalling of a response body into the
  `EsSearchResponse` struct: the top-level value must be a JSON object,
  unknown keys are ignored, absent keys and JSON null leave the zero value,
  and a present key whose value does not fit the field type is an error.
-/

/-- JSON values.  Go `encoding/json` represents every JSON number the same
way, so a single `jnum` constructor with a rational payload covers both the
integers and the floating-point literals the Go code writes. -/
inductive J where
  | jnull : J
  | jbool : Bool → J
  | jnum : Rat → J
  | jstr : String → J
  | jarr : List J → J
  | jobj : List (String × J) → J

/-- Key lookup in a JSON object; on any non-object value there is nothing
to look up. -/
def J.lookup : J → String → Option J
  | J.jobj kvs, k => (kvs.find? (fun kv => kv.fst == k)).map Prod.snd
  | _, _ => none

/-- Translation of Go `checkParams`: reject the pagination pair whenever
`offset+size > 5000 || size > 1000 || offset > 1000 || offset < 0 || size < 0`,
with the error message the Go code produces via `fmt.Errorf`. -/
def checkParams (offset size : Int) : Except String Unit :=
  if offset + size > 5000 ∨ size > 1000 ∨ offset > 1000 ∨ offset < 0 ∨ size < 0 then
    Except.error "disallowed size/offset parameters"
  else
    Except.ok ()

/-- The query body built by `DoSearchPosts`. -/
def postsQuery (q : String) (offset size : Int) : J :=
  J.jobj [
    ("sort", J.jobj [("created_at", J.jobj [("order", J.jstr "desc")])]),
    ("query", J.jobj [("match", J.jobj [("everything", J.jobj [("query", J.jstr q)])])]),
    ("size", J.jnum (size : Rat)),
    ("from", J.jnum (offset : Rat))
  ]

/-- The `basic` match clause built inside `DoSearchProfiles`. -/
def profilesBasic (q : String) : J :=
  J.jobj [("match", J.jobj [("everything", J.jobj [("query", J.jstr q)])])]

/-- The query body built by `DoSearchProfiles`. -/
def profilesQuery (q : String) (offset size : Int) : J :=
  J.jobj [
    ("query", J.jobj [
      ("bool", J.jobj [
        ("must", profilesBasic q),
        ("should", J.jarr [
          J.jobj [("term", J.jobj [("has_avatar", J.jbool true)])],
          J.jobj [("term", J.jobj [("has_banner", J.jbool true)])]
        ]),
        ("boost", J.jnum (1 : Rat))
      ])
    ]),
    ("size", J.jnum (size : Rat)),
    ("from", J.jnum (offset : Rat))
  ]

/-- The query body built by `DoSearchProfilesTypeahead`. -/
def typeaheadQuery (q : String) : J :=
  J.jobj [
    ("query", J.jobj [
      ("multi_match", J.jobj [
        ("query", J.jstr q),
        ("type", J.jstr "bool_prefix"),
        ("fields", J.jarr [
          J.jstr "typeahead",
          J.jstr "typeahead._2gram",
          J.jstr "typeahead._3gram"
        ])
      ])
    ]),
    ("size", J.jnum (30 : Rat))
  ]

/-- The query body built by `DoSearchGeneric`. -/
def genericQuery (q : String) : J :=
  J.jobj [
    ("query", J.jobj [
      ("query_string", J.jobj [
        ("query", J.jstr q),
        ("default_operator", J.jstr "and"),
        ("analyze_wildcard", J.jbool true),
        ("allow_leading_wildcard", J.jbool false),
        ("lenient", J.jbool true),
        ("default_field", J.jstr "everything")
      ])
    ])
  ]

/-- The `Total` struct nested in Go `EsSearchHits` (its fields carry no json
tags, so `encoding/json` matches the keys case-insensitively). -/
structure EsTotal where
  value : Int
  relation : String

/-- Go `EsSearchHit`.  The `_source` field is a `json.RawMessage` in Go, the
raw bytes of whatever JSON value appeared there; the model keeps that value
as a `J`, with `J.jnull` for the zero (absent) case. -/
structure EsSearchHit where
  index : String
  id : String
  score : Rat
  source : J

/-- Go `EsSearchHits`. -/
structure EsSearchHits where
  total : EsTotal
  max_score : Rat
  hits : List EsSearchHit

/-- Go `EsSearchResponse`. -/
structure EsSearchResponse where
  took : Int
  timed_out : Bool
  hits : EsSearchHits

/-- Object-key lookup used while decoding a tagged field: Go matches the
json tag exactly. -/
def lookupKey (kvs : List (String × J)) (k : String) : Option J :=
  (kvs.find? (fun kv => kv.fst == k)).map Prod.snd

/-- Object-key lookup for the untagged `Total` fields: Go falls back to a
case-insensitive match on the Go field name. -/
def lookupKeyCI (kvs : List (String × J)) (k : String) : Option J :=
  (kvs.find? (fun kv => kv.fst.toLower == k.toLower)).map Prod.snd

/-- Go `encoding/json` unmarshalling of a JSON value into an `int` field:
only an integral JSON number fits. -/
def decodeIntJ : J → Except String Int
  | J.jnum n => if n.den == 1 then Except.ok n.num
                else Except.error "cannot unmarshal fractional number into field of type int"
  | _ => Except.error "cannot unmarshal value into field of type int"

/-- Go `encoding/json` unmarshalling into a `bool` field. -/
def decodeBoolJ : J → Except String Bool
  | J.jbool b => Except.ok b
  | _ => Except.error "cannot unmarshal value into field of type bool"

/-- Go `encoding/json` unmarshalling into a `string` field. -/
def decodeStringJ : J → Except String String
  | J.jstr s => Except.ok s
  | _ => Except.error "cannot unmarshal value into field of type string"

/-- Go `encoding/json` unmarshalling into a `float64` field: any JSON
number fits. -/
def decodeNumJ : J → Except String Rat
  | J.jnum n => Except.ok n
  | _ => Except.error "cannot unmarshal value into field of type float64"

/-- One struct field: an absent key or an explicit JSON null leaves the
zero value (Go unmarshals null into these field types as a no-op); a
present value must fit the field type. -/
def decodeField (kvs : List (String × J)) (k : String)
    (dec : J → Except String α) (zero : α) : Except String α :=
  match lookupKey kvs k with
  | none => Except.ok zero
  | some J.jnull => Except.ok zero
  | some v => dec v

/-- Same, with the case-insensitive key match of an untagged field. -/
def decodeFieldCI (kvs : List (String × J)) (k : String)
    (dec : J → Except String α) (zero : α) : Except String α :=
  match lookupKeyCI kvs k with
  | none => Except.ok zero
  | some J.jnull => Except.ok zero
  | some v => dec v

/-- Unmarshalling of the untagged `Total` struct; Go unmarshals a JSON
null into a struct as a no-op, leaving the zero value with no error. -/
def decodeTotal : J → Except String EsTotal
  | J.jnull => Except.ok ⟨0, ""⟩
  | J.jobj kvs => do
      let v ← decodeFieldCI kvs "value" decodeIntJ 0
      let r ← decodeFieldCI kvs "relation" decodeStringJ ""
      Except.ok ⟨v, r⟩
  | _ => Except.error "cannot unmarshal value into struct of type Total"

/-- Unmarshalling of one `EsSearchHit`: tagged fields `_index`, `_id`,
`_score`, `_source`; the raw-message source accepts any JSON value; a
null array element is a no-op yielding the zero-valued hit. -/
def decodeHit : J → Except String EsSearchHit
  | J.jnull => Except.ok ⟨"", "", 0, J.jnull⟩
  | J.jobj kvs => do
      let idx ← decodeField kvs "_index" decodeStringJ ""
      let hid ← decodeField kvs "_id" decodeStringJ ""
      let sc ← decodeField kvs "_score" decodeNumJ 0
      let src := (lookupKey kvs "_source").getD J.jnull
      Except.ok ⟨idx, hid, sc, src⟩
  | _ => Except.error "cannot unmarshal value into struct of type EsSearchHit"

/-- Unmarshalling of the elements of the hits array, in order, stopping
at the first element that fails. -/
def decodeHits : List J → Except String (List EsSearchHit)
  | [] => Except.ok []
  | x :: xs => do
      let h ← decodeHit x
      let rest ← decodeHits xs
      Except.ok (h :: rest)

/-- Unmarshalling of the hits array; a JSON null unmarshals into a slice
as a no-op, leaving the zero (empty) slice. -/
def decodeHitList : J → Except String (List EsSearchHit)
  | J.jnull => Except.ok []
  | J.jarr xs => decodeHits xs
  | _ => Except.error "cannot unmarshal value into slice of type EsSearchHit"

/-- Unmarshalling of `EsSearchHits`: tagged fields `total`, `max_score`,
`hits`; a JSON null is a no-op leaving the zero value. -/
def decodeEsSearchHits : J → Except String EsSearchHits
  | J.jnull => Except.ok ⟨⟨0, ""⟩, 0, []⟩
  | J.jobj kvs => do
      let t ← decodeField kvs "total" decodeTotal ⟨0, ""⟩
      let ms ← decodeField kvs "max_score" decodeNumJ 0
      let hs ← decodeField kvs "hits" decodeHitList []
      Except.ok ⟨t, ms, hs⟩
  | _ => Except.error "cannot unmarshal value into struct of type EsSearchHits"

/-- Unmarshalling of the whole response body into `EsSearchResponse`:
tagged fields `took`, `timed_out`, `hits`; the top-level value must be a
JSON object or JSON null, unknown keys are ignored, absent keys leave
zero values; Go unmarshals a top-level null into the struct as a
successful no-op, yielding the zero-valued response. -/
def decodeEsSearchResponse : J → Except String EsSearchResponse
  | J.jnull => Except.ok ⟨0, false, ⟨⟨0, ""⟩, 0, []⟩⟩
  | J.jobj kvs => do
      let tk ← decodeField kvs "took" decodeIntJ 0
      let tmo ← decodeField kvs "timed_out" decodeBoolJ false
      let hs ← decodeField kvs "hits" decodeEsSearchHits ⟨⟨0, ""⟩, 0, []⟩
      Except.ok ⟨tk, tmo, hs⟩
  | _ => Except.error "cannot unmarshal value into struct of type EsSearchResponse"

/-- The injected OpenSearch client (`escli`).  A call carries the index
name, the structured query body and the track-total-hits flag, and either
fails at the transport level (the `err != nil` branch in Go `doSearch`) or
yields the response body. -/
structure Engine where
  run : String → J → Bool → Except String J

/-- Outcome of one Go search operation.  `ok r` is the Go return
`(&r, nil)`; `err m` is the Go return `(nil, error(m))`; `fatal m` is the
`log.Fatalf` process abort, which returns nothing to the caller. -/
inductive DoResult where
  | ok : EsSearchResponse → DoResult
  | err : String → DoResult
  | fatal : String → DoResult

/-- Translation of Go `doSearch`: dispatch the query with the
track-total-hits flag set to false; a transport error hits `log.Fatalf`
(process abort); a body that does not unmarshal is returned as an error
wrapped with the `decoding search response` context; otherwise the decoded
response is returned. -/
def doSearch (escli : Engine) (index : String) (query : J) : DoResult :=
  match escli.run index query false with
  | Except.error e => DoResult.fatal ("Error getting response: " ++ e)
  | Except.ok body =>
    match decodeEsSearchResponse body with
    | Except.error e => DoResult.err ("decoding search response: " ++ e)
    | Except.ok out => DoResult.ok out

/-- Translation of Go `DoSearchPosts`: validate the pagination pair, then
dispatch the posts query. -/
def DoSearchPosts (escli : Engine) (index q : String) (offset size : Int) : DoResult :=
  match checkParams offset size with
  | Except.error e => DoResult.err e
  | Except.ok _ => doSearch escli index (postsQuery q offset size)

/-- Translation of Go `DoSearchProfiles`: validate the pagination pair,
then dispatch the profiles query. -/
def DoSearchProfiles (escli : Engine) (index q : String) (offset size : Int) : DoResult :=
  match checkParams offset size with
  | Except.error e => DoResult.err e
  | Except.ok _ => doSearch escli index (profilesQuery q offset size)

/-- Translation of Go `DoSearchProfilesTypeahead`: no parameter
validation, no caller-supplied pagination; dispatch the typeahead query. -/
def DoSearchProfilesTypeahead (escli : Engine) (index q : String) : DoResult :=
  doSearch escli index (typeaheadQuery q)

/-- Translation of Go `DoSearchGeneric`: dispatch the query-string query. -/
def DoSearchGeneric (escli : Engine) (index q : String) : DoResult :=
  doSearch escli index (genericQuery q)

/-- A stub engine whose every call yields an empty JSON object body. -/
def nullEngine : Engine := ⟨fun _ _ _ => Except.ok (J.jobj [])⟩

/-- A stub engine whose every call fails at the transport level. -/
def failEngine : Engine := ⟨fun _ _ _ => Except.error "connection refused"⟩

/-- A stub engine whose every call yields a body that is valid JSON but is
not a JSON object. -/
def badBodyEngine : Engine := ⟨fun _ _ _ => Except.ok (J.jstr "oops")⟩

/-- A stub engine that agrees with `nullEngine` whenever the
track-total-hits flag is false but fails whenever the flag is true. -/
def trackSensitiveEngine : Engine :=
  ⟨fun _ _ t => if t then Except.error "tracked" else Except.ok (J.jobj [])⟩

/-- Claim C1 counterexample: the claim asserts that the boundary pair
(offset 1000, size 4000) succeeds, but checkParams rejects it, because
size 4000 exceeds the size bound 1000 even though the sum is exactly
5000. -/
theorem checkParams_rejects_1000_4000 :
    checkParams 1000 4000 = Except.error "disallowed size/offset parameters" := rfl

/-- Claim C1 (amended): checkParams succeeds on an integer pair exactly
when offset+size is at most 5000, size is at most 1000, offset is at most
1000 and both are nonnegative; the boundaries (0, 1000) and (1000, 0)
succeed, while (1000, 4000), offset 1001, size 1001, offset -1, size -1
and (1000, 4001) are each rejected. -/
theorem checkParams_characterization :
    (∀ offset size : Int,
      checkParams offset size = Except.ok () ↔
        (offset + size ≤ 5000 ∧ size ≤ 1000 ∧ offset ≤ 1000 ∧ 0 ≤ offset ∧ 0 ≤ size)) ∧
    checkParams 0 1000 = Except.ok () ∧
    checkParams 1000 0 = Except.ok () ∧
    checkParams 1000 4000 = Except.error "disallowed size/offset parameters" ∧
    checkParams 1001 0 = Except.error "disallowed size/offset parameters" ∧
    checkParams 0 1001 = Except.error "disallowed size/offset parameters" ∧
    checkParams (-1) 0 = Except.error "disallowed size/offset parameters" ∧
    checkParams 0 (-1) = Except.error "disallowed size/offset parameters" ∧
    checkParams 1000 4001 = Except.error "disallowed size/offset parameters" := by
  refine ⟨?_, rfl, rfl, rfl, rfl, rfl, rfl, rfl, rfl⟩
  intro offset size
  unfold checkParams
  split
  · rename_i h
    constructor
    · intro hc
      exact Except.noConfusion hc
    · intro hc
      exfalso
      omega
  · rename_i h
    constructor
    · intro _
      omega
    · intro _
      rfl

/-- Claim C3: for every pagination pair the validator accepts,
DoSearchPosts dispatches exactly the posts query, whose sort key is a
descending sort on created_at alone (so no relevance-score sort), whose
query key is a match on the field everything against the caller text, and
whose size and from keys are the caller size and offset. -/
theorem DoSearchPosts_query_shape (escli : Engine) (index q : String) (offset size : Int)
    (h : checkParams offset size = Except.ok ()) :
    DoSearchPosts escli index q offset size = doSearch escli index (postsQuery q offset size) ∧
    (postsQuery q offset size).lookup "sort" =
      some (J.jobj [("created_at", J.jobj [("order", J.jstr "desc")])]) ∧
    (J.jobj [("created_at", J.jobj [("order", J.jstr "desc")])]).lookup "_score" = none ∧
    (postsQuery q offset size).lookup "query" =
      some (J.jobj [("match", J.jobj [("everything", J.jobj [("query", J.jstr q)])])]) ∧
    (postsQuery q offset size).lookup "size" = some (J.jnum (size : Rat)) ∧
    (postsQuery q offset size).lookup "from" = some (J.jnum (offset : Rat)) := by
  refine ⟨?_, rfl, rfl, rfl, rfl, rfl⟩
  unfold DoSearchPosts
  rw [h]

/-- Witness for C3 at the concrete scenario input. -/
theorem DoSearchPosts_query_shape_witness :
    DoSearchPosts nullEngine "posts" "cat" 0 20 =
      doSearch nullEngine "posts" (postsQuery "cat" 0 20) :=
  (DoSearchPosts_query_shape nullEngine "posts" "cat" 0 20 (by rfl)).1

/-- Claim C4: DoSearchProfilesTypeahead performs no parameter validation
and dispatches unconditionally; its query requests exactly 30 results,
carries no from key, and is a bool_prefix multi-field match over exactly
the fields typeahead, typeahead._2gram and typeahead._3gram. -/
theorem DoSearchProfilesTypeahead_query_shape (escli : Engine) (index q : String) :
    DoSearchProfilesTypeahead escli index q = doSearch escli index (typeaheadQuery q) ∧
    (typeaheadQuery q).lookup "size" = some (J.jnum (30 : Rat)) ∧
    (typeaheadQuery q).lookup "from" = none ∧
    (typeaheadQuery q).lookup "query" =
      some (J.jobj [("multi_match", J.jobj [
        ("query", J.jstr q),
        ("type", J.jstr "bool_prefix"),
        ("fields", J.jarr [
          J.jstr "typeahead",
          J.jstr "typeahead._2gram",
          J.jstr "typeahead._3gram"])])]) :=
  ⟨rfl, rfl, rfl, rfl⟩

/-- Claim C5: for every pagination pair the validator accepts,
DoSearchProfiles dispatches exactly the profiles query, whose bool clause
has as must a match on the field everything against the caller text, as
should exactly the two non-filtering term clauses on has_avatar and
has_banner, and boost 1.0. -/
theorem DoSearchProfiles_query_shape (escli : Engine) (index q : String) (offset size : Int)
    (h : checkParams offset size = Except.ok ()) :
    DoSearchProfiles escli index q offset size =
      doSearch escli index (profilesQuery q offset size) ∧
    (profilesQuery q offset size).lookup "query" =
      some (J.jobj [("bool", J.jobj [
        ("must", J.jobj [("match", J.jobj [("everything", J.jobj [("query", J.jstr q)])])]),
        ("should", J.jarr [
          J.jobj [("term", J.jobj [("has_avatar", J.jbool true)])],
          J.jobj [("term", J.jobj [("has_banner", J.jbool true)])]]),
        ("boost", J.jnum (1 : Rat))])]) := by
  refine ⟨?_, rfl⟩
  unfold DoSearchProfiles
  rw [h]

/-- Witness for C5 at a concrete input. -/
theorem DoSearchProfiles_query_shape_witness :
    DoSearchProfiles nullEngine "profiles" "cat" 0 20 =
      doSearch nullEngine "profiles" (profilesQuery "cat" 0 20) :=
  (DoSearchProfiles_query_shape nullEngine "profiles" "cat" 0 20 (by rfl)).1

/-- Claim C6: DoSearchGeneric dispatches a query_string query whose query
value is the caller text unchanged and whose fixed policy settings are
default_operator and, analyze_wildcard true, allow_leading_wildcard false,
lenient true and default_field everything. -/
theorem DoSearchGeneric_query_shape (escli : Engine) (index q : String) :
    DoSearchGeneric escli index q = doSearch escli index (genericQuery q) ∧
    (genericQuery q).lookup "query" =
      some (J.jobj [("query_string", J.jobj [
        ("query", J.jstr q),
        ("default_operator", J.jstr "and"),
        ("analyze_wildcard", J.jbool true),
        ("allow_leading_wildcard", J.jbool false),
        ("lenient", J.jbool true),
        ("default_field", J.jstr "everything")])]) :=
  ⟨rfl, rfl⟩

/-- Claim C2, evaluating the code at the failing input: with pagination the
validator accepts and an engine whose transport call fails, DoSearchPosts
reaches the log.Fatalf branch and aborts the process instead of returning
a recoverable error to the caller. -/
theorem transport_failure_aborts_process :
    DoSearchPosts failEngine "posts" "cat" 0 20 =
      DoResult.fatal "Error getting response: connection refused" := rfl

/-- Claim C7: whenever the validator rejects the pagination pair,
DoSearchPosts and DoSearchProfiles return that validation error with a nil
response, for every engine alike, so no engine call is made and no query
leaves the process. -/
theorem validator_rejects_before_dispatch (offset size : Int) (m : String)
    (h : checkParams offset size = Except.error m) :
    ∀ (escli : Engine) (index q : String),
      DoSearchPosts escli index q offset size = DoResult.err m ∧
      DoSearchProfiles escli index q offset size = DoResult.err m := by
  intro escli index q
  constructor
  · unfold DoSearchPosts
    rw [h]
  · unfold DoSearchProfiles
    rw [h]

/-- Witness for C7 at the rejected pair (offset -1, size 0). -/
theorem validator_rejects_before_dispatch_witness :
    DoSearchPosts nullEngine "posts" "cat" (-1) 0 =
        DoResult.err "disallowed size/offset parameters" ∧
    DoSearchProfiles nullEngine "posts" "cat" (-1) 0 =
        DoResult.err "disallowed size/offset parameters" :=
  validator_rejects_before_dispatch (-1) 0 "disallowed size/offset parameters"
    (by rfl) nullEngine "posts" "cat"

/-- Claim C8: when the engine call succeeds but the body does not
unmarshal, doSearch returns the decode failure to the caller wrapped with
the decoding context, an outcome distinct from the fatal one, so the
process never terminates on this path. -/
theorem decode_failure_returned_recoverably (escli : Engine) (index : String)
    (query body : J) (e : String)
    (htr : escli.run index query false = Except.ok body)
    (hdec : decodeEsSearchResponse body = Except.error e) :
    doSearch escli index query = DoResult.err ("decoding search response: " ++ e) ∧
    (∀ m : String, DoResult.err ("decoding search response: " ++ e) ≠ DoResult.fatal m) := by
  constructor
  · unfold doSearch
    rw [htr]
    show (match decodeEsSearchResponse body with
      | Except.error e => DoResult.err ("decoding search response: " ++ e)
      | Except.ok out => DoResult.ok out) =
      DoResult.err ("decoding search response: " ++ e)
    rw [hdec]
  · intro m hcontra
    exact DoResult.noConfusion hcontra

/-- Witness for C8 with an engine that answers every call with a JSON
string body, which does not unmarshal into the response struct. -/
theorem decode_failure_returned_recoverably_witness :
    doSearch badBodyEngine "posts" (postsQuery "cat" 0 20) =
      DoResult.err ("decoding search response: " ++
        "cannot unmarshal value into struct of type EsSearchResponse") :=
  (decode_failure_returned_recoverably badBodyEngine "posts" (postsQuery "cat" 0 20)
    (J.jstr "oops") "cannot unmarshal value into struct of type EsSearchResponse"
    rfl rfl).1

/-- Claim C9: every engine dispatch of the four public operations goes
through doSearch with the track-total-hits flag false; two engines that
agree on every call with the flag false are indistinguishable to all four
operations, whatever they do when the flag is true. -/
theorem dispatches_track_total_hits_false (e1 e2 : Engine)
    (h : ∀ (index : String) (query : J), e1.run index query false = e2.run index query false) :
    ∀ (index q : String) (offset size : Int),
      DoSearchPosts e1 index q offset size = DoSearchPosts e2 index q offset size ∧
      DoSearchProfiles e1 index q offset size = DoSearchProfiles e2 index q offset size ∧
      DoSearchProfilesTypeahead e1 index q = DoSearchProfilesTypeahead e2 index q ∧
      DoSearchGeneric e1 index q = DoSearchGeneric e2 index q := by
  intro index q offset size
  have hds : ∀ qq : J, doSearch e1 index qq = doSearch e2 index qq := by
    intro qq
    unfold doSearch
    rw [h]
  refine ⟨?_, ?_, hds _, hds _⟩
  · unfold DoSearchPosts
    cases checkParams offset size with
    | error e => rfl
    | ok u => exact hds _
  · unfold DoSearchProfiles
    cases checkParams offset size with
    | error e => rfl
    | ok u => exact hds _

/-- Witness for C9: nullEngine and trackSensitiveEngine agree whenever the
flag is false and differ whenever it is true, and the posts operation
cannot tell them apart. -/
theorem dispatches_track_total_hits_false_witness :
    DoSearchPosts nullEngine "posts" "cat" 0 20 =
      DoSearchPosts trackSensitiveEngine "posts" "cat" 0 20 :=
  (dispatches_track_total_hits_false nullEngine trackSensitiveEngine
    (fun _ _ => rfl) "posts" "cat" 0 20).1

